import Mathlib

/-!
# Solar PPA projection engine: a shallow embedding

This file embeds the cash-flow projection engine of `src/App.jsx` (the
functions `pmt`, `npv`, `irr`, `buildYearlyProjection` and
`buildMonthlyProjection`) into Lean and proves the testable properties of
its specification against the embedding.

Modelling conventions:
* JavaScript numbers are modelled as exact rationals (`ℚ`); the analysis is
  of the engine's ideal real-number semantics, ignoring floating-point
  rounding and overflow.
* The year-count inputs `contractYears` and `loanTenureYears` are modelled
  as integers (`ℤ`), following the spec's data model; the `for` loops of the
  source run `max 0 ⌊n⌋` times, which for integer inputs is `Int.toNat`.
* `Math.round` rounds half toward positive infinity, i.e. `⌊q + 1/2⌋`.
* The only sources of a non-finite (`NaN`/`Infinity`) value inside `irr`
  given finite inputs are a zero Newton denominator `df` and a rate that
  reaches exactly `-1` (where `Math.pow(0, t)` underflows the division);
  in both cases the JavaScript loop breaks with a non-finite rate.  The
  embedding returns `none` for those paths and `some rate` otherwise.
* The summary's `irr` field has type `number | null` in the source (`null`
  arises only from the `catch` branch).  It is modelled by the three-valued
  `IrrOutcome`: the `null` sentinel, a non-finite number, or a finite number.
-/

/-- Input configuration of `buildYearlyProjection` (the flat parameter
object destructured in `src/App.jsx`). -/
structure ProjectionConfig where
  capacityKw : ℚ
  unitsPerKwDay : ℚ
  degradationPct : ℚ
  contractYears : ℤ
  ppaTariff : ℚ
  tariffEscalationPct : ℚ
  capexPerKw : ℚ
  upfrontPercent : ℚ
  loanInterestPct : ℚ
  loanTenureYears : ℤ
  omrPerKwYear : ℚ
  omrEscalationPct : ℚ
  discountRatePct : ℚ
deriving DecidableEq

/-- One row of the yearly projection table. -/
structure YearRow where
  year : ℕ
  generationKwh : ℤ
  tariff : ℚ
  revenue : ℚ
  omr : ℚ
  emi : ℚ
  net : ℚ
deriving DecidableEq

instance : Inhabited YearRow :=
  ⟨{ year := 0, generationKwh := 0, tariff := 0, revenue := 0, omr := 0,
     emi := 0, net := 0 }⟩

/-- One point of the yearly cumulative series (`{ year, value }`). -/
structure CumPoint where
  year : ℕ
  value : ℚ
deriving DecidableEq

/-- The summary's `irr` field: `null` from the dead `catch` branch, a
non-finite number, or a finite number. -/
inductive IrrOutcome where
  | null : IrrOutcome
  | nonfinite : IrrOutcome
  | finite : ℚ → IrrOutcome
deriving DecidableEq

/-- The object returned by `buildYearlyProjection`. -/
structure YearlySummary where
  capexTotal : ℚ
  upfront : ℚ
  loanAmount : ℚ
  year1Gen : ℤ
  year1Revenue : ℚ
  emiAnnual : ℚ
  paybackYear : Option ℕ
  npv : ℚ
  irr : IrrOutcome
  cumulative : List CumPoint
  rows : List YearRow

/-- One row of the monthly projection table. -/
structure MonthRow where
  key : String
  label : String
  month : String
  generationKwh : ℤ
  tariff : ℚ
  revenue : ℚ
  omr : ℚ
  emi : ℚ
  net : ℚ
deriving DecidableEq

/-- The object returned by `buildMonthlyProjection`. -/
structure MonthlySummary where
  rows : List MonthRow
  cumulative : List ℚ

/-- JavaScript `Math.round`: round half toward positive infinity. -/
def jsRound (q : ℚ) : ℤ := ⌊q + 1 / 2⌋

/-- `pmt(rate, nper, pv)` of the source: the fixed loan installment, negative
by convention.  `Math.pow(1 + r, -nper)` is the rational `zpow`. -/
def pmt (rate : ℚ) (nper : ℕ) (pv : ℚ) : ℚ :=
  if rate = 0 then -(pv / nper)
  else -(pv * rate) / (1 - (1 + rate) ^ (-(nper : ℤ)))

/-- Accumulator loop of the source's `npv` (`cashflows.reduce` with index
`i`): `acc` is the running sum, `i` the current index. -/
def npvAux (discountRate : ℚ) : List ℚ → ℕ → ℚ → ℚ
  | [], _, acc => acc
  | cf :: rest, i, acc =>
      npvAux discountRate rest (i + 1) (acc + cf / (1 + discountRate) ^ i)

/-- `npv(discountRate, cashflows)` of the source. -/
def npv (discountRate : ℚ) (cashflows : List ℚ) : ℚ :=
  npvAux discountRate cashflows 0 0

/-- The Newton derivative accumulated by the inner loop of `irr`:
`df += (-t * cashflows[t]) / Math.pow(1 + rate, t + 1)` for `t > 0`. -/
def dnpv (rate : ℚ) (cashflows : List ℚ) : ℚ :=
  (cashflows.enum.map fun p =>
    if p.1 = 0 then 0 else (-(p.1 : ℚ) * p.2) / (1 + rate) ^ (p.1 + 1)).sum

/-- The Newton–Raphson loop of `irr`.  A zero derivative, or a rate of
exactly `-1`, makes the JavaScript update produce a non-finite rate and
break out of the loop; the embedding returns `none` there.  Otherwise the
loop breaks with the updated rate once the step is below `1e-8`, and after
the fuel (100 iterations) runs out it returns the current rate. -/
def irrGo (cashflows : List ℚ) : ℚ → ℕ → Option ℚ
  | rate, 0 => some rate
  | rate, fuel + 1 =>
      if 1 + rate = 0 then none
      else
        let f := npv rate cashflows
        let df := dnpv rate cashflows
        if df = 0 then none
        else
          let step := f / df
          let rate₁ := rate - step
          if |step| < 1 / 100000000 then some rate₁
          else irrGo cashflows rate₁ fuel

/-- `irr(cashflows, guess)` of the source: at most 100 Newton iterations. -/
def irr (cashflows : List ℚ) (guess : ℚ) : Option ℚ :=
  irrGo cashflows guess 100

/-- `capexTotal = capacityKw * capexPerKw`. -/
def capexTotalOf (cfg : ProjectionConfig) : ℚ := cfg.capacityKw * cfg.capexPerKw

/-- `upfront = (upfrontPercent / 100) * capexTotal`. -/
def upfrontOf (cfg : ProjectionConfig) : ℚ :=
  (cfg.upfrontPercent / 100) * capexTotalOf cfg

/-- `loanAmount = capexTotal - upfront`. -/
def loanAmountOf (cfg : ProjectionConfig) : ℚ := capexTotalOf cfg - upfrontOf cfg

/-- `loanRate = loanInterestPct / 100`. -/
def loanRateOf (cfg : ProjectionConfig) : ℚ := cfg.loanInterestPct / 100

/-- `loanNper = Math.max(0, Math.min(contractYears, loanTenureYears))`. -/
def loanNperOf (cfg : ProjectionConfig) : ℤ :=
  max 0 (min cfg.contractYears cfg.loanTenureYears)

/-- `emiAnnual = loanNper > 0 ? pmt(loanRate, loanNper, loanAmount) : 0`. -/
def emiAnnualOf (cfg : ProjectionConfig) : ℚ :=
  if 0 < loanNperOf cfg then
    pmt (loanRateOf cfg) (loanNperOf cfg).toNat (loanAmountOf cfg)
  else 0

/-- Year-1 generation before rounding: `capacityKw * unitsPerKwDay * 365`. -/
def year1GenQ (cfg : ProjectionConfig) : ℚ :=
  cfg.capacityKw * cfg.unitsPerKwDay * 365

/-- Per-year generation decay factor `1 - degradationPct / 100`. -/
def decayOf (cfg : ProjectionConfig) : ℚ := 1 - cfg.degradationPct / 100

/-- Per-year tariff escalation factor `1 + tariffEscalationPct / 100`. -/
def tariffEscOf (cfg : ProjectionConfig) : ℚ := 1 + cfg.tariffEscalationPct / 100

/-- Per-year O&M escalation factor `1 + omrEscalationPct / 100`. -/
def omrEscOf (cfg : ProjectionConfig) : ℚ := 1 + cfg.omrEscalationPct / 100

/-- Base yearly O&M cost `capacityKw * omrPerKwYear`. -/
def omr1Of (cfg : ProjectionConfig) : ℚ := cfg.capacityKw * cfg.omrPerKwYear

/-- The row pushed by one iteration of the yearly loop, given the current
(pre-rounding) generation, tariff and O&M state and the year index. -/
def mkYearRow (cfg : ProjectionConfig) (gen tariff omr : ℚ) (y : ℕ) : YearRow :=
  let revenue := gen * tariff
  let loanPayment := if (y : ℤ) ≤ loanNperOf cfg then emiAnnualOf cfg else 0
  { year := y
    generationKwh := jsRound gen
    tariff := tariff
    revenue := revenue
    omr := omr
    emi := loanPayment
    net := revenue - omr + loanPayment }

/-- The loop `for (y = 1; y <= contractYears; y++)`: the escalation applied
at the top of every iteration after the first is equivalently applied to the
state passed to the next iteration.  `fuel` is the number of years left. -/
def yearRowsAux (cfg : ProjectionConfig) (gen tariff omr : ℚ) (y : ℕ) :
    ℕ → List YearRow
  | 0 => []
  | fuel + 1 =>
      mkYearRow cfg gen tariff omr y ::
        yearRowsAux cfg (gen * decayOf cfg) (tariff * tariffEscOf cfg)
          (omr * omrEscOf cfg) (y + 1) fuel

/-- The synthetic year-0 row (`net = -upfront`, everything else zero). -/
def year0Row (cfg : ProjectionConfig) : YearRow :=
  { year := 0, generationKwh := 0, tariff := 0, revenue := 0, omr := 0,
    emi := 0, net := -(upfrontOf cfg) }

/-- The full `rows` array of the yearly projection. -/
def projRows (cfg : ProjectionConfig) : List YearRow :=
  year0Row cfg ::
    yearRowsAux cfg (year1GenQ cfg) cfg.ppaTariff (omr1Of cfg) 1
      cfg.contractYears.toNat

/-- The payback IIFE: walk the rows accumulating `cum += net`, returning the
first index where `cum ≥ 0`, else `null`. -/
def paybackAux : ℚ → ℕ → List YearRow → Option ℕ
  | _, _, [] => none
  | cum, i, r :: rest =>
      let c := cum + r.net
      if 0 ≤ c then some i else paybackAux c (i + 1) rest

/-- The cumulative `reduce`: each element pairs the row's year with the
running total `prev + r.net`. -/
def mkCumulative : ℚ → List YearRow → List CumPoint
  | _, [] => []
  | prev, r :: rest =>
      let v := prev + r.net
      { year := r.year, value := v } :: mkCumulative v rest

/-- `buildYearlyProjection(config)` of the source. -/
def buildYearlyProjection (cfg : ProjectionConfig) : YearlySummary :=
  let rows := projRows cfg
  let cashflows := rows.map YearRow.net
  let npvVal := npv (cfg.discountRatePct / 100) cashflows
  let irrVal :=
    match irr cashflows (15 / 100) with
    | none => IrrOutcome.nonfinite
    | some r => IrrOutcome.finite r
  { capexTotal := capexTotalOf cfg
    upfront := upfrontOf cfg
    loanAmount := loanAmountOf cfg
    year1Gen := jsRound (year1GenQ cfg)
    year1Revenue := year1GenQ cfg * cfg.ppaTariff
    emiAnnual := emiAnnualOf cfg
    paybackYear := paybackAux 0 0 rows
    npv := npvVal
    irr := irrVal
    cumulative := mkCumulative 0 rows
    rows := rows }

/-- The twelve month names used for monthly rows. -/
def monthNames : List String :=
  ["Jan", "Feb", "Mar", "Apr", "May", "Jun",
   "Jul", "Aug", "Sep", "Oct", "Nov", "Dec"]

/-- The twelve rows emitted for the year at index `y` of the yearly rows:
every financial field is the yearly figure divided by 12, the tariff is
carried unchanged, and the monthly generation share is rounded again. -/
def monthBlock (y : ℕ) (yr : YearRow) : List MonthRow :=
  (List.range 12).map fun m =>
    { key := "Y" ++ toString y ++ "-M" ++ toString (m + 1)
      label := "Y" ++ toString y
      month := monthNames.getD m ""
      generationKwh := jsRound ((yr.generationKwh : ℚ) / 12)
      tariff := yr.tariff
      revenue := yr.revenue / 12
      omr := yr.omr / 12
      emi := yr.emi / 12
      net := yr.net / 12 }

/-- The loop `for (y = 1; y < yearly.rows.length; y++)`: a block of twelve
rows per remaining yearly row, with `y` counting up from the start index. -/
def monthRowsFrom (y : ℕ) : List YearRow → List MonthRow
  | [] => []
  | r :: rest => monthBlock y r ++ monthRowsFrom (y + 1) rest

/-- The year-0 placeholder monthly row (reuses the year-0 net).  The source
reads `yearly.rows[0]` unconditionally; the embedding totalizes the empty
case with the default row, which no caller exercises. -/
def month0Row (yearly : YearlySummary) : MonthRow :=
  { key := "Y0-M0", label := "Y0", month := "-", generationKwh := 0,
    tariff := 0, revenue := 0, omr := 0, emi := 0,
    net := (yearly.rows.headD default).net }

/-- The monthly cumulative `map` (`cum += r.net`). -/
def runTotals : ℚ → List MonthRow → List ℚ
  | _, [] => []
  | c, r :: rest => (c + r.net) :: runTotals (c + r.net) rest

/-- `buildMonthlyProjection(yearly)` of the source. -/
def buildMonthlyProjection (yearly : YearlySummary) : MonthlySummary :=
  let rows := month0Row yearly :: monthRowsFrom 1 (yearly.rows.drop 1)
  { rows := rows
    cumulative := runTotals 0 rows }

/-! ## Concrete configurations used to settle individual claims -/

/-- A degenerate configuration: a one-year contract with every numeric input
zero.  Its cash-flow sequence is `[0, 0]`, on which the Newton iteration of
`irr` meets a zero derivative at the first step. -/
def cfgZero : ProjectionConfig :=
  { capacityKw := 0, unitsPerKwDay := 0, degradationPct := 0,
    contractYears := 1, ppaTariff := 0, tariffEscalationPct := 0,
    capexPerKw := 0, upfrontPercent := 0, loanInterestPct := 0,
    loanTenureYears := 0, omrPerKwYear := 0, omrEscalationPct := 0,
    discountRatePct := 0 }

/-- A configuration financed entirely upfront (`upfrontPercent = 100`), so
the loan amount and hence the installment are zero although the loan window
`1..min(contractYears, loanTenureYears)` is non-empty. -/
def cfgFullUpfront : ProjectionConfig :=
  { capacityKw := 1, unitsPerKwDay := 1, degradationPct := 0,
    contractYears := 1, ppaTariff := 1, tariffEscalationPct := 0,
    capexPerKw := 100, upfrontPercent := 100, loanInterestPct := 0,
    loanTenureYears := 1, omrPerKwYear := 0, omrEscalationPct := 0,
    discountRatePct := 0 }

/-- A configuration with `upfrontPercent = 200`: the loan amount is negative
and the zero-interest installment `pmt(0, 1, -100) = 100` is positive. -/
def cfgOverUpfront : ProjectionConfig :=
  { capacityKw := 1, unitsPerKwDay := 1, degradationPct := 0,
    contractYears := 1, ppaTariff := 1, tariffEscalationPct := 0,
    capexPerKw := 100, upfrontPercent := 200, loanInterestPct := 0,
    loanTenureYears := 1, omrPerKwYear := 0, omrEscalationPct := 0,
    discountRatePct := 0 }

/-- An interest-free loan over five of ten contract years: the installment
is `pmt(0, 5, 100) = -20`, non-zero inside the loan window. -/
def cfgLoan : ProjectionConfig :=
  { capacityKw := 1, unitsPerKwDay := 1, degradationPct := 0,
    contractYears := 10, ppaTariff := 1, tariffEscalationPct := 0,
    capexPerKw := 100, upfrontPercent := 0, loanInterestPct := 0,
    loanTenureYears := 5, omrPerKwYear := 0, omrEscalationPct := 0,
    discountRatePct := 0 }

/-- The concrete scenario of the specification's §8: 50 kW at 4.2 units per
kW-day over a 20-year contract at tariff 5 with capex 42000 per kW and 20%
upfront. -/
def cfgScenario : ProjectionConfig :=
  { capacityKw := 50, unitsPerKwDay := 21 / 5, degradationPct := 1,
    contractYears := 20, ppaTariff := 5, tariffEscalationPct := 2,
    capexPerKw := 42000, upfrontPercent := 20, loanInterestPct := 9,
    loanTenureYears := 10, omrPerKwYear := 600, omrEscalationPct := 4,
    discountRatePct := 8 }

/-- A configuration with positive escalation rates and a two-year contract,
used to instantiate the escalation and monthly-expansion theorems. -/
def cfgEscal : ProjectionConfig :=
  { capacityKw := 2, unitsPerKwDay := 3, degradationPct := 10,
    contractYears := 2, ppaTariff := 4, tariffEscalationPct := 5,
    capexPerKw := 50, upfrontPercent := 50, loanInterestPct := 0,
    loanTenureYears := 2, omrPerKwYear := 6, omrEscalationPct := 20,
    discountRatePct := 10 }

/-! ## Helper lemmas -/

theorem npvAux_eq (r : ℚ) :
    ∀ (l : List ℚ) (i : ℕ) (acc : ℚ),
      npvAux r l i acc =
        acc + ((List.range l.length).map fun t => l.getD t 0 / (1 + r) ^ (i + t)).sum
  | [], i, acc => by simp [npvAux]
  | cf :: rest, i, acc => by
      rw [npvAux, npvAux_eq r rest (i + 1) (acc + cf / (1 + r) ^ i)]
      have hsplit :
          ((List.range (cf :: rest).length).map
              fun t => (cf :: rest).getD t 0 / (1 + r) ^ (i + t)) =
            (cf / (1 + r) ^ i) ::
              ((List.range rest.length).map
                fun t => rest.getD t 0 / (1 + r) ^ (i + 1 + t)) := by
        rw [List.length_cons, List.range_succ_eq_map, List.map_cons, List.map_map]
        congr 1
        apply List.map_congr_left
        intro t _
        have ht : i + (t + 1) = i + 1 + t := by omega
        simp [Function.comp, Nat.succ_eq_add_one, ht]
      rw [hsplit, List.sum_cons]
      ring

theorem range_map_getD_sum (l : List ℚ) :
    ((List.range l.length).map fun t => l.getD t 0).sum = l.sum := by
  induction l with
  | nil => simp
  | cons a rest ih =>
      rw [List.length_cons, List.range_succ_eq_map, List.map_cons, List.map_map,
        List.sum_cons]
      have hmap :
          (List.map ((fun t => (a :: rest).getD t 0) ∘ Nat.succ)
              (List.range rest.length)) =
            (List.range rest.length).map fun t => rest.getD t 0 := by
        apply List.map_congr_left
        intro t _
        simp [Function.comp, Nat.succ_eq_add_one]
      rw [hmap, ih]
      simp

/-- C9: the NPV function evaluated at discount rate 0 returns exactly the sum
of the cash flows, and in general returns `Σ cashflow[t] / (1+r)^t` with
period 0 undiscounted. -/
theorem npv_sum_formula :
    (∀ cashflows : List ℚ, npv 0 cashflows = cashflows.sum) ∧
      ∀ (r : ℚ) (cashflows : List ℚ),
        npv r cashflows =
          ((List.range cashflows.length).map
            fun t => cashflows.getD t 0 / (1 + r) ^ t).sum := by
  constructor
  · intro cashflows
    rw [npv, npvAux_eq]
    simp only [zero_add, add_zero, one_pow, div_one]
    exact range_map_getD_sum cashflows
  · intro r cashflows
    rw [npv, npvAux_eq]
    simp only [zero_add]

theorem mkCumulative_length : ∀ (l : List YearRow) (prev : ℚ),
    (mkCumulative prev l).length = l.length
  | [], _ => rfl
  | _ :: rest, prev => by
      rw [mkCumulative, List.length_cons, List.length_cons,
        mkCumulative_length rest]

theorem mkCumulative_getElem? :
    ∀ (l : List YearRow) (prev : ℚ) (i : ℕ), i < l.length →
      (mkCumulative prev l)[i]? =
        some { year := (l.getD i default).year
               value := prev + ((l.take (i + 1)).map YearRow.net).sum }
  | [], _, i, hi => absurd hi (by simp)
  | r :: rest, prev, 0, _ => by simp [mkCumulative]
  | r :: rest, prev, i + 1, hi => by
      rw [mkCumulative]
      have hi' : i < rest.length := by simpa using hi
      simp only [List.getElem?_cons_succ, List.getD_cons_succ,
        List.take_succ_cons, List.map_cons, List.sum_cons]
      rw [mkCumulative_getElem? rest (prev + r.net) i hi']
      congr 2
      ring

theorem runTotals_length : ∀ (l : List MonthRow) (c : ℚ),
    (runTotals c l).length = l.length
  | [], _ => rfl
  | _ :: rest, c => by
      rw [runTotals, List.length_cons, List.length_cons, runTotals_length rest]

theorem runTotals_getElem? :
    ∀ (l : List MonthRow) (c : ℚ) (i : ℕ), i < l.length →
      (runTotals c l)[i]? = some (c + ((l.take (i + 1)).map MonthRow.net).sum)
  | [], _, i, hi => absurd hi (by simp)
  | r :: rest, c, 0, _ => by simp [runTotals]
  | r :: rest, c, i + 1, hi => by
      rw [runTotals]
      have hi' : i < rest.length := by simpa using hi
      simp only [List.getElem?_cons_succ, List.take_succ_cons, List.map_cons,
        List.sum_cons]
      rw [runTotals_getElem? rest (c + r.net) i hi']
      congr 1
      ring

/-- C5: every entry of the yearly cumulative series is the running sum of the
row nets up to its index, and likewise for the monthly cumulative series. -/
theorem cumulative_consistency (cfg : ProjectionConfig) :
    ((buildYearlyProjection cfg).cumulative.length =
        (buildYearlyProjection cfg).rows.length ∧
      ∀ i, i < (buildYearlyProjection cfg).rows.length →
        ((buildYearlyProjection cfg).cumulative[i]?).map CumPoint.value =
          some ((((buildYearlyProjection cfg).rows.take (i + 1)).map
            YearRow.net).sum)) ∧
    ∀ (yearly : YearlySummary),
      (buildMonthlyProjection yearly).cumulative.length =
          (buildMonthlyProjection yearly).rows.length ∧
        ∀ i, i < (buildMonthlyProjection yearly).rows.length →
          (buildMonthlyProjection yearly).cumulative[i]? =
            some ((((buildMonthlyProjection yearly).rows.take (i + 1)).map
              MonthRow.net).sum) := by
  constructor
  · constructor
    · simp [buildYearlyProjection, mkCumulative_length]
    · intro i hi
      have hi' : i < (projRows cfg).length := by
        simpa [buildYearlyProjection] using hi
      simp only [buildYearlyProjection]
      rw [mkCumulative_getElem? (projRows cfg) 0 i hi']
      simp
  · intro yearly
    constructor
    · simp [buildMonthlyProjection, runTotals_length]
    · intro i hi
      have hi' :
          i < (month0Row yearly :: monthRowsFrom 1 (yearly.rows.drop 1)).length := by
        simpa [buildMonthlyProjection] using hi
      simp only [buildMonthlyProjection]
      rw [runTotals_getElem? _ 0 i hi']
      simp

theorem paybackAux_spec :
    ∀ (l : List YearRow) (cum : ℚ) (i : ℕ),
      (∀ j, paybackAux cum i l = some j →
        ∃ k, j = i + k ∧ k < l.length ∧
          0 ≤ cum + ((l.take (k + 1)).map YearRow.net).sum ∧
          ∀ k' < k, cum + ((l.take (k' + 1)).map YearRow.net).sum < 0) ∧
      (paybackAux cum i l = none →
        ∀ k, k < l.length → cum + ((l.take (k + 1)).map YearRow.net).sum < 0)
  | [], cum, i => by
      constructor
      · intro j hj
        simp [paybackAux] at hj
      · intro _ k hk
        simp at hk
  | r :: rest, cum, i => by
      by_cases h0 : 0 ≤ cum + r.net
      · constructor
        · intro j hj
          rw [paybackAux] at hj
          simp only [if_pos h0, Option.some.injEq] at hj
          refine ⟨0, by omega, by simp, by simpa using h0, by omega⟩
        · intro hnone
          rw [paybackAux] at hnone
          simp [if_pos h0] at hnone
      · constructor
        · intro j hj
          rw [paybackAux] at hj
          simp only [if_neg h0] at hj
          obtain ⟨k, hk1, hk2, hk3, hk4⟩ :=
            ((paybackAux_spec rest (cum + r.net) (i + 1)).1 j hj)
          refine ⟨k + 1, by omega, by simp only [List.length_cons]; omega, ?_, ?_⟩
          · simpa [List.take_succ_cons, add_assoc] using hk3
          · intro k' hk'
            match k' with
            | 0 => simpa using lt_of_not_le h0
            | k'' + 1 =>
                have := hk4 k'' (by omega)
                simpa [List.take_succ_cons, add_assoc] using this
        · intro hnone
          rw [paybackAux] at hnone
          simp only [if_neg h0] at hnone
          intro k hk
          match k with
          | 0 => simpa using lt_of_not_le h0
          | k'' + 1 =>
              have := (paybackAux_spec rest (cum + r.net) (i + 1)).2 hnone k''
                (by simpa using hk)
              simpa [List.take_succ_cons, add_assoc] using this

/-- C7: `paybackYear` is the first row index (year 0 included) at which the
running cumulative net is nonnegative, and `null` when the cumulative net
stays negative over the whole horizon. -/
theorem payback_first_nonneg (cfg : ProjectionConfig) :
    (∀ j, (buildYearlyProjection cfg).paybackYear = some j →
      j < (buildYearlyProjection cfg).rows.length ∧
      0 ≤ (((buildYearlyProjection cfg).rows.take (j + 1)).map YearRow.net).sum ∧
      ∀ j' < j,
        (((buildYearlyProjection cfg).rows.take (j' + 1)).map YearRow.net).sum < 0) ∧
    ((buildYearlyProjection cfg).paybackYear = none →
      ∀ j, j < (buildYearlyProjection cfg).rows.length →
        (((buildYearlyProjection cfg).rows.take (j + 1)).map YearRow.net).sum < 0) := by
  have hrows : (buildYearlyProjection cfg).rows = projRows cfg := by
    simp [buildYearlyProjection]
  have hpb : (buildYearlyProjection cfg).paybackYear = paybackAux 0 0 (projRows cfg) := by
    simp [buildYearlyProjection]
  constructor
  · intro j hj
    rw [hpb] at hj
    obtain ⟨k, hk1, hk2, hk3, hk4⟩ := (paybackAux_spec (projRows cfg) 0 0).1 j hj
    have hjk : j = k := by omega
    subst hjk
    refine ⟨by rwa [hrows], by simpa [hrows] using hk3, ?_⟩
    intro j' hj'
    have := hk4 j' hj'
    simpa [hrows] using this
  · intro hnone j hj
    rw [hpb] at hnone
    have := (paybackAux_spec (projRows cfg) 0 0).2 hnone j (by rwa [hrows] at hj)
    simpa [hrows] using this

theorem yearRowsAux_length (cfg : ProjectionConfig) :
    ∀ (fuel : ℕ) (gen tariff omr : ℚ) (y : ℕ),
      (yearRowsAux cfg gen tariff omr y fuel).length = fuel
  | 0, _, _, _, _ => rfl
  | fuel + 1, gen, tariff, omr, y => by
      rw [yearRowsAux, List.length_cons, yearRowsAux_length cfg fuel]

theorem yearRowsAux_getElem? (cfg : ProjectionConfig) :
    ∀ (fuel m : ℕ) (gen tariff omr : ℚ) (y : ℕ), m < fuel →
      (yearRowsAux cfg gen tariff omr y fuel)[m]? =
        some (mkYearRow cfg (gen * decayOf cfg ^ m) (tariff * tariffEscOf cfg ^ m)
          (omr * omrEscOf cfg ^ m) (y + m))
  | 0, m, _, _, _, _, hm => absurd hm (by omega)
  | fuel + 1, 0, gen, tariff, omr, y, _ => by
      simp [yearRowsAux]
  | fuel + 1, m + 1, gen, tariff, omr, y, hm => by
      rw [yearRowsAux, List.getElem?_cons_succ,
        yearRowsAux_getElem? cfg fuel m _ _ _ _ (by omega)]
      congr 1
      have h1 : gen * decayOf cfg * decayOf cfg ^ m = gen * decayOf cfg ^ (m + 1) := by
        ring
      have h2 : tariff * tariffEscOf cfg * tariffEscOf cfg ^ m =
          tariff * tariffEscOf cfg ^ (m + 1) := by ring
      have h3 : omr * omrEscOf cfg * omrEscOf cfg ^ m =
          omr * omrEscOf cfg ^ (m + 1) := by ring
      have h4 : y + 1 + m = y + (m + 1) := by omega
      rw [h1, h2, h3, h4]

theorem projRows_length (cfg : ProjectionConfig) :
    (projRows cfg).length = cfg.contractYears.toNat + 1 := by
  rw [projRows, List.length_cons, yearRowsAux_length]

theorem projRows_getElem?_zero (cfg : ProjectionConfig) :
    (projRows cfg)[0]? = some (year0Row cfg) := by
  rw [projRows, List.getElem?_cons_zero]

theorem projRows_getD (cfg : ProjectionConfig) (y : ℕ) (h1 : 1 ≤ y)
    (h2 : y ≤ cfg.contractYears.toNat) :
    (projRows cfg).getD y default =
      mkYearRow cfg (year1GenQ cfg * decayOf cfg ^ (y - 1))
        (cfg.ppaTariff * tariffEscOf cfg ^ (y - 1))
        (omr1Of cfg * omrEscOf cfg ^ (y - 1)) y := by
  obtain ⟨m, rfl⟩ : ∃ m, y = m + 1 := ⟨y - 1, by omega⟩
  rw [List.getD_eq_getElem?_getD, projRows, List.getElem?_cons_succ,
    yearRowsAux_getElem? cfg _ m _ _ _ _ (by omega)]
  simp [Nat.add_comm 1 m]

theorem buildYearly_rows (cfg : ProjectionConfig) :
    (buildYearlyProjection cfg).rows = projRows cfg := by
  simp [buildYearlyProjection]

theorem buildYearly_emiAnnual (cfg : ProjectionConfig) :
    (buildYearlyProjection cfg).emiAnnual = emiAnnualOf cfg := by
  simp [buildYearlyProjection]

/-- C1 (amended): for a positive contract length and a non-zero computed
annual installment, a row's `emi` is non-zero exactly inside the loan window
`1 ≤ y ≤ min(contractYears, loanTenureYears)`, and equals the constant
`emiAnnual` throughout the window. -/
theorem loan_window_amended (cfg : ProjectionConfig) (y : ℕ)
    (hpos : 0 < cfg.contractYears)
    (hemi : (buildYearlyProjection cfg).emiAnnual ≠ 0)
    (h1 : 1 ≤ y) (h2 : (y : ℤ) ≤ cfg.contractYears) :
    ((((buildYearlyProjection cfg).rows.getD y default).emi ≠ 0) ↔
      (y : ℤ) ≤ min cfg.contractYears cfg.loanTenureYears) ∧
    ((y : ℤ) ≤ min cfg.contractYears cfg.loanTenureYears →
      ((buildYearlyProjection cfg).rows.getD y default).emi =
        (buildYearlyProjection cfg).emiAnnual) := by
  have hy : y ≤ cfg.contractYears.toNat := by omega
  have hemi' : emiAnnualOf cfg ≠ 0 := by rwa [buildYearly_emiAnnual] at hemi
  have hwin : ((y : ℤ) ≤ loanNperOf cfg) ↔
      ((y : ℤ) ≤ min cfg.contractYears cfg.loanTenureYears) := by
    unfold loanNperOf
    omega
  rw [buildYearly_rows, buildYearly_emiAnnual, projRows_getD cfg y h1 hy]
  simp only [mkYearRow]
  by_cases hw : (y : ℤ) ≤ min cfg.contractYears cfg.loanTenureYears
  · rw [if_pos (hwin.mpr hw)]
    exact ⟨⟨fun _ => hw, fun _ => hemi'⟩, fun _ => rfl⟩
  · rw [if_neg (fun h => hw (hwin.mp h))]
    constructor
    · simp [hw]
    · exact fun h => absurd h hw

/-- C1 counterexample: with full upfront financing (`upfrontPercent = 100`)
the loan amount is zero, so the row-1 installment is zero even though year 1
lies inside the non-empty loan window — the claimed equivalence fails. -/
theorem loan_window_cex :
    0 < cfgFullUpfront.contractYears ∧
      ¬((((buildYearlyProjection cfgFullUpfront).rows.getD 1 default).emi ≠ 0) ↔
        (1 ≤ (1 : ℕ) ∧ ((1 : ℕ) : ℤ) ≤
          min cfgFullUpfront.contractYears cfgFullUpfront.loanTenureYears)) := by
  have hemi0 : emiAnnualOf cfgFullUpfront = 0 := by
    norm_num [emiAnnualOf, loanNperOf, pmt, loanRateOf, loanAmountOf,
      capexTotalOf, upfrontOf, cfgFullUpfront]
  have hrow : ((buildYearlyProjection cfgFullUpfront).rows.getD 1 default).emi = 0 := by
    rw [buildYearly_rows, projRows_getD cfgFullUpfront 1 le_rfl (by decide)]
    simp only [mkYearRow]
    rw [if_pos (by decide), hemi0]
  refine ⟨by decide, ?_⟩
  rw [hrow]
  simp [cfgFullUpfront]

/-- C1 witness: the amended loan-window property instantiated for the
interest-free five-of-ten-years loan configuration at year 3. -/
theorem loan_window_amended_witness :
    (0 < cfgLoan.contractYears ∧ (buildYearlyProjection cfgLoan).emiAnnual ≠ 0 ∧
      1 ≤ 3 ∧ ((3 : ℕ) : ℤ) ≤ cfgLoan.contractYears) ∧
    ((((buildYearlyProjection cfgLoan).rows.getD 3 default).emi ≠ 0) ↔
      ((3 : ℕ) : ℤ) ≤ min cfgLoan.contractYears cfgLoan.loanTenureYears) ∧
    (((3 : ℕ) : ℤ) ≤ min cfgLoan.contractYears cfgLoan.loanTenureYears →
      ((buildYearlyProjection cfgLoan).rows.getD 3 default).emi =
        (buildYearlyProjection cfgLoan).emiAnnual) :=
  have hemi : (buildYearlyProjection cfgLoan).emiAnnual ≠ 0 := by
    rw [buildYearly_emiAnnual]
    norm_num [emiAnnualOf, loanNperOf, pmt, loanRateOf, loanAmountOf,
      capexTotalOf, upfrontOf, cfgLoan]
  ⟨⟨by decide, hemi, by norm_num, by decide⟩,
    loan_window_amended cfgLoan 3 (by decide) hemi (by norm_num) (by decide)⟩

theorem pmt_nonpos (rate pv : ℚ) (n : ℕ) (hr : 0 ≤ rate) (hpv : 0 ≤ pv)
    (hn : 1 ≤ n) : pmt rate n pv ≤ 0 := by
  rw [pmt]
  by_cases h : rate = 0
  · rw [if_pos h]
    have : (0 : ℚ) ≤ pv / n := div_nonneg hpv (by positivity)
    linarith
  · rw [if_neg h]
    have hrpos : 0 < rate := lt_of_le_of_ne hr (Ne.symm h)
    have h1 : (1 : ℚ) < 1 + rate := by linarith
    have hpow : 1 < (1 + rate) ^ n := one_lt_pow₀ h1 (by omega)
    have hz : ((1 + rate) : ℚ) ^ (-(n : ℤ)) = ((1 + rate) ^ n)⁻¹ := by
      rw [zpow_neg, zpow_natCast]
    have hinv : ((1 + rate) ^ n)⁻¹ < 1 := inv_lt_one_of_one_lt₀ hpow
    have hD : 0 < 1 - ((1 + rate) : ℚ) ^ (-(n : ℤ)) := by
      rw [hz]
      linarith
    exact div_nonpos_iff.mpr (Or.inr ⟨neg_nonpos.2 (mul_nonneg hpv hr), le_of_lt hD⟩)

theorem yearRowsAux_emi_cases (cfg : ProjectionConfig) :
    ∀ (fuel : ℕ) (gen tariff omr : ℚ) (y : ℕ) (r : YearRow),
      r ∈ yearRowsAux cfg gen tariff omr y fuel →
        r.emi = emiAnnualOf cfg ∨ r.emi = 0
  | 0, _, _, _, _, r, hr => absurd hr (by simp [yearRowsAux])
  | fuel + 1, gen, tariff, omr, y, r, hr => by
      rw [yearRowsAux, List.mem_cons] at hr
      cases hr with
      | inl h =>
          subst h
          simp only [mkYearRow]
          by_cases hw : (y : ℤ) ≤ loanNperOf cfg
          · rw [if_pos hw]
            exact Or.inl rfl
          · rw [if_neg hw]
            exact Or.inr rfl
      | inr h => exact yearRowsAux_emi_cases cfg fuel _ _ _ _ r h

/-- C2 (amended): with a nonnegative plant size and capex, an upfront share
of at most 100% and a nonnegative loan interest rate, the annual installment
and each row's `emi` are nonpositive (negative-equals-outflow convention). -/
theorem emi_sign_amended (cfg : ProjectionConfig)
    (hcap : 0 ≤ cfg.capacityKw) (hcapex : 0 ≤ cfg.capexPerKw)
    (hup : cfg.upfrontPercent ≤ 100) (hint : 0 ≤ cfg.loanInterestPct) :
    (buildYearlyProjection cfg).emiAnnual ≤ 0 ∧
      ∀ r ∈ (buildYearlyProjection cfg).rows, r.emi ≤ 0 := by
  have hcc : 0 ≤ cfg.capacityKw * cfg.capexPerKw := mul_nonneg hcap hcapex
  have hloan : 0 ≤ loanAmountOf cfg := by
    rw [loanAmountOf, upfrontOf, capexTotalOf]
    nlinarith
  have hemi : emiAnnualOf cfg ≤ 0 := by
    rw [emiAnnualOf]
    by_cases h : 0 < loanNperOf cfg
    · rw [if_pos h]
      refine pmt_nonpos _ _ _ ?_ hloan (by omega)
      rw [loanRateOf]
      positivity
    · rw [if_neg h]
  constructor
  · rwa [buildYearly_emiAnnual]
  · intro r hr
    rw [buildYearly_rows, projRows, List.mem_cons] at hr
    cases hr with
    | inl h =>
        subst h
        rw [year0Row]
    | inr h =>
        rcases yearRowsAux_emi_cases cfg _ _ _ _ _ r h with h' | h'
        · rwa [h']
        · rw [h']

/-- C2 counterexample: with `upfrontPercent = 200` the loan amount is
`-100` and the annual installment `pmt(0, 1, -100) = 100` is positive, so
the unconditional sign invariant fails. -/
theorem emi_sign_cex : ¬((buildYearlyProjection cfgOverUpfront).emiAnnual ≤ 0) := by
  rw [buildYearly_emiAnnual]
  norm_num [emiAnnualOf, loanNperOf, pmt, loanRateOf, loanAmountOf,
    capexTotalOf, upfrontOf, cfgOverUpfront]

/-- C2 witness: the amended sign invariant instantiated for the
interest-free loan configuration. -/
theorem emi_sign_amended_witness :
    ((0 : ℚ) ≤ cfgLoan.capacityKw ∧ (0 : ℚ) ≤ cfgLoan.capexPerKw ∧
      cfgLoan.upfrontPercent ≤ 100 ∧ (0 : ℚ) ≤ cfgLoan.loanInterestPct) ∧
    ((buildYearlyProjection cfgLoan).emiAnnual ≤ 0 ∧
      ∀ r ∈ (buildYearlyProjection cfgLoan).rows, r.emi ≤ 0) :=
  ⟨⟨by norm_num [cfgLoan], by norm_num [cfgLoan], by norm_num [cfgLoan],
      by norm_num [cfgLoan]⟩,
    emi_sign_amended cfgLoan (by norm_num [cfgLoan]) (by norm_num [cfgLoan])
      (by norm_num [cfgLoan]) (by norm_num [cfgLoan])⟩

theorem buildYearly_irrField (cfg : ProjectionConfig) :
    (buildYearlyProjection cfg).irr =
      match irr ((projRows cfg).map YearRow.net) (15 / 100) with
      | none => IrrOutcome.nonfinite
      | some r => IrrOutcome.finite r := by
  simp [buildYearlyProjection]

/-- C10: the `irr` computation is a total function of the cash flows — the
`try`/`catch` around it never fires — so the summary's `irr` field is never
the `null` sentinel. -/
theorem irr_never_null (cfg : ProjectionConfig) :
    (buildYearlyProjection cfg).irr ≠ IrrOutcome.null := by
  rw [buildYearly_irrField]
  cases irr ((projRows cfg).map YearRow.net) (15 / 100) with
  | none => simp
  | some r => simp

/-- C3 (amended): when the Newton–Raphson iteration ends in a non-finite
rate, the summary's `irr` field carries the non-finite marker itself — a
value distinct from the `null` sentinel — and no fault is propagated. -/
theorem irr_nonfinite_field (cfg : ProjectionConfig)
    (h : irr ((buildYearlyProjection cfg).rows.map YearRow.net) (15 / 100) = none) :
    (buildYearlyProjection cfg).irr = IrrOutcome.nonfinite := by
  rw [buildYearly_rows] at h
  rw [buildYearly_irrField, h]

theorem cfgZero_cashflows : (projRows cfgZero).map YearRow.net = [0, 0] := by
  norm_num [projRows, yearRowsAux, year0Row, mkYearRow, upfrontOf,
    capexTotalOf, omr1Of, year1GenQ, emiAnnualOf, loanNperOf, cfgZero]

theorem irr_zero_pair : irr [(0 : ℚ), 0] (15 / 100) = none := by
  have h100 : (100 : ℕ) = 99 + 1 := rfl
  rw [irr, h100, irrGo]
  have hne : ¬(1 + (15 : ℚ) / 100 = 0) := by norm_num
  rw [if_neg hne]
  have hdf : dnpv (15 / 100) [(0 : ℚ), 0] = 0 := by
    simp [dnpv, List.enum, List.enumFrom]
  simp [hdf]

/-- C3 counterexample: on the all-zero one-year configuration the IRR
iteration meets a zero derivative (a non-finite rate in the source), yet the
summary's `irr` field is not `null` — the claim that non-convergence is
reported as `null` fails. -/
theorem irr_null_cex :
    irr ((buildYearlyProjection cfgZero).rows.map YearRow.net) (15 / 100) = none ∧
      (buildYearlyProjection cfgZero).irr ≠ IrrOutcome.null := by
  have h : irr ((buildYearlyProjection cfgZero).rows.map YearRow.net) (15 / 100) = none := by
    rw [buildYearly_rows, cfgZero_cashflows]
    exact irr_zero_pair
  refine ⟨h, ?_⟩
  rw [buildYearly_irrField]
  rw [buildYearly_rows] at h
  rw [h]
  simp

/-- C3 witness: the amended statement instantiated on the all-zero
configuration, whose IRR iteration is non-finite. -/
theorem irr_nonfinite_field_witness :
    irr ((buildYearlyProjection cfgZero).rows.map YearRow.net) (15 / 100) = none ∧
      (buildYearlyProjection cfgZero).irr = IrrOutcome.nonfinite :=
  have h : irr ((buildYearlyProjection cfgZero).rows.map YearRow.net) (15 / 100) = none := by
    rw [buildYearly_rows, cfgZero_cashflows]
    exact irr_zero_pair
  ⟨h, irr_nonfinite_field cfgZero h⟩

/-- C6: from year 2 on, tariff and O&M escalate multiplicatively from the
previous year's row and the pre-rounding generation decays by the
degradation factor; year 1 carries the unescalated base tariff, base O&M
and base generation. -/
theorem escalation_recurrence (cfg : ProjectionConfig) (y : ℕ)
    (h2 : 2 ≤ y) (hy : (y : ℤ) ≤ cfg.contractYears) :
    (((buildYearlyProjection cfg).rows.getD y default).tariff =
      ((buildYearlyProjection cfg).rows.getD (y - 1) default).tariff *
        (1 + cfg.tariffEscalationPct / 100)) ∧
    (((buildYearlyProjection cfg).rows.getD y default).omr =
      ((buildYearlyProjection cfg).rows.getD (y - 1) default).omr *
        (1 + cfg.omrEscalationPct / 100)) ∧
    (((buildYearlyProjection cfg).rows.getD y default).generationKwh =
      jsRound (year1GenQ cfg * decayOf cfg ^ (y - 1))) ∧
    (year1GenQ cfg * decayOf cfg ^ (y - 1) =
      (year1GenQ cfg * decayOf cfg ^ (y - 2)) * (1 - cfg.degradationPct / 100)) ∧
    (((buildYearlyProjection cfg).rows.getD 1 default).tariff = cfg.ppaTariff) ∧
    (((buildYearlyProjection cfg).rows.getD 1 default).omr =
      cfg.capacityKw * cfg.omrPerKwYear) ∧
    (((buildYearlyProjection cfg).rows.getD 1 default).generationKwh =
      jsRound (year1GenQ cfg)) := by
  obtain ⟨k, rfl⟩ : ∃ k, y = k + 2 := ⟨y - 2, by omega⟩
  have hcap : k + 2 ≤ cfg.contractYears.toNat := by omega
  rw [buildYearly_rows, projRows_getD cfg (k + 2) (by omega) hcap,
    projRows_getD cfg (k + 2 - 1) (by omega) (by omega),
    projRows_getD cfg 1 le_rfl (by omega)]
  simp only [mkYearRow]
  have e1 : k + 2 - 1 = k + 1 := by omega
  have e2 : k + 2 - 2 = k := by omega
  have e3 : k + 1 - 1 = k := by omega
  rw [e1, e2, e3]
  refine ⟨?_, ?_, ?_, ?_, ?_, ?_, ?_⟩
  · rw [tariffEscOf, pow_succ]
    ring
  · rw [omrEscOf, pow_succ]
    ring
  · trivial
  · rw [decayOf, pow_succ]
    ring
  · rw [pow_zero, mul_one]
  · rw [pow_zero, mul_one, omr1Of]
  · rw [pow_zero, mul_one]

/-- C6 witness: the escalation recurrences instantiated at year 2 of the
positive-escalation two-year configuration. -/
theorem escalation_recurrence_witness :
    (2 ≤ 2 ∧ ((2 : ℕ) : ℤ) ≤ cfgEscal.contractYears) ∧
    (((buildYearlyProjection cfgEscal).rows.getD 2 default).tariff =
      ((buildYearlyProjection cfgEscal).rows.getD (2 - 1) default).tariff *
        (1 + cfgEscal.tariffEscalationPct / 100)) ∧
    (((buildYearlyProjection cfgEscal).rows.getD 2 default).omr =
      ((buildYearlyProjection cfgEscal).rows.getD (2 - 1) default).omr *
        (1 + cfgEscal.omrEscalationPct / 100)) ∧
    (((buildYearlyProjection cfgEscal).rows.getD 2 default).generationKwh =
      jsRound (year1GenQ cfgEscal * decayOf cfgEscal ^ (2 - 1))) ∧
    (year1GenQ cfgEscal * decayOf cfgEscal ^ (2 - 1) =
      (year1GenQ cfgEscal * decayOf cfgEscal ^ (2 - 2)) *
        (1 - cfgEscal.degradationPct / 100)) ∧
    (((buildYearlyProjection cfgEscal).rows.getD 1 default).tariff =
      cfgEscal.ppaTariff) ∧
    (((buildYearlyProjection cfgEscal).rows.getD 1 default).omr =
      cfgEscal.capacityKw * cfgEscal.omrPerKwYear) ∧
    (((buildYearlyProjection cfgEscal).rows.getD 1 default).generationKwh =
      jsRound (year1GenQ cfgEscal)) :=
  ⟨⟨le_rfl, by decide⟩, escalation_recurrence cfgEscal 2 le_rfl (by decide)⟩

theorem monthBlock_length (y : ℕ) (yr : YearRow) : (monthBlock y yr).length = 12 := by
  simp [monthBlock]

theorem monthRowsFrom_length : ∀ (l : List YearRow) (y : ℕ),
    (monthRowsFrom y l).length = 12 * l.length
  | [], _ => rfl
  | r :: rest, y => by
      rw [monthRowsFrom, List.length_append, monthBlock_length,
        monthRowsFrom_length rest, List.length_cons]
      omega

theorem monthRowsFrom_block : ∀ (l : List YearRow) (k y : ℕ), k < l.length →
    ((monthRowsFrom y l).drop (12 * k)).take 12 = monthBlock (y + k) (l.getD k default)
  | [], k, _, hk => absurd hk (by simp)
  | r :: rest, 0, y, _ => by
      rw [monthRowsFrom, Nat.mul_zero, List.drop_zero]
      have hb : (monthBlock y r).length = 12 := monthBlock_length y r
      rw [← hb, List.take_left]
      simp
  | r :: rest, k + 1, y, hk => by
      rw [monthRowsFrom]
      have h12 : 12 * (k + 1) = (monthBlock y r).length + 12 * k := by
        rw [monthBlock_length]
        omega
      rw [h12, List.drop_append,
        monthRowsFrom_block rest k (y + 1) (by simpa using hk)]
      have hy : y + 1 + k = y + (k + 1) := by omega
      rw [hy, List.getD_cons_succ]

theorem monthBlock_net_sum (y : ℕ) (yr : YearRow) :
    ((monthBlock y yr).map MonthRow.net).sum = yr.net := by
  rw [monthBlock, List.map_map]
  have hconst :
      ((List.range 12).map
        ((fun r => MonthRow.net r) ∘ fun m =>
          ({ key := "Y" ++ toString y ++ "-M" ++ toString (m + 1)
             label := "Y" ++ toString y
             month := monthNames.getD m ""
             generationKwh := jsRound ((yr.generationKwh : ℚ) / 12)
             tariff := yr.tariff
             revenue := yr.revenue / 12
             omr := yr.omr / 12
             emi := yr.emi / 12
             net := yr.net / 12 } : MonthRow))) =
        (List.range 12).map fun _ => yr.net / 12 := rfl
  rw [hconst, List.map_const', List.length_range, List.sum_replicate,
    nsmul_eq_mul]
  push_cast
  ring

theorem monthBlock_fields (y : ℕ) (yr : YearRow) (r : MonthRow)
    (hr : r ∈ monthBlock y yr) :
    r.tariff = yr.tariff ∧
      r.generationKwh = jsRound ((yr.generationKwh : ℚ) / 12) ∧
      r.revenue = yr.revenue / 12 ∧ r.omr = yr.omr / 12 ∧
      r.emi = yr.emi / 12 ∧ r.net = yr.net / 12 := by
  rw [monthBlock] at hr
  simp only [List.mem_map, List.mem_range] at hr
  obtain ⟨m, _, rfl⟩ := hr
  exact ⟨rfl, rfl, rfl, rfl, rfl, rfl⟩

/-- C4: the monthly table carries one placeholder row plus exactly twelve
rows per contract year; the twelve rows of year `y` each hold a 1/12 share
of that year's revenue, O&M, installment and net, the year's tariff
unchanged, and the rounded 1/12 generation share, and their nets sum back
exactly to the yearly net. -/
theorem monthly_roundtrip (cfg : ProjectionConfig) (y : ℕ)
    (h1 : 1 ≤ y) (h2 : (y : ℤ) ≤ cfg.contractYears) :
    (buildMonthlyProjection (buildYearlyProjection cfg)).rows.length =
        1 + 12 * cfg.contractYears.toNat ∧
    (((buildMonthlyProjection (buildYearlyProjection cfg)).rows.drop
        (1 + 12 * (y - 1))).take 12).length = 12 ∧
    ((((buildMonthlyProjection (buildYearlyProjection cfg)).rows.drop
        (1 + 12 * (y - 1))).take 12).map MonthRow.net).sum =
      ((buildYearlyProjection cfg).rows.getD y default).net ∧
    ∀ r ∈ ((buildMonthlyProjection (buildYearlyProjection cfg)).rows.drop
        (1 + 12 * (y - 1))).take 12,
      r.tariff = ((buildYearlyProjection cfg).rows.getD y default).tariff ∧
      r.generationKwh =
        jsRound ((((buildYearlyProjection cfg).rows.getD y default).generationKwh : ℚ) / 12) ∧
      r.revenue = ((buildYearlyProjection cfg).rows.getD y default).revenue / 12 ∧
      r.omr = ((buildYearlyProjection cfg).rows.getD y default).omr / 12 ∧
      r.emi = ((buildYearlyProjection cfg).rows.getD y default).emi / 12 ∧
      r.net = ((buildYearlyProjection cfg).rows.getD y default).net / 12 := by
  have hrows : (buildMonthlyProjection (buildYearlyProjection cfg)).rows =
      month0Row (buildYearlyProjection cfg) ::
        monthRowsFrom 1 ((buildYearlyProjection cfg).rows.drop 1) := by
    simp [buildMonthlyProjection]
  have hlen : (buildYearlyProjection cfg).rows.length = cfg.contractYears.toNat + 1 := by
    rw [buildYearly_rows, projRows_length]
  have hdlen : ((buildYearlyProjection cfg).rows.drop 1).length =
      cfg.contractYears.toNat := by
    simp [hlen]
  have hy' : y - 1 < ((buildYearlyProjection cfg).rows.drop 1).length := by
    rw [hdlen]
    omega
  have hblock : ((buildMonthlyProjection (buildYearlyProjection cfg)).rows.drop
      (1 + 12 * (y - 1))).take 12 =
      monthBlock y ((buildYearlyProjection cfg).rows.getD y default) := by
    rw [hrows, Nat.add_comm 1 (12 * (y - 1)), List.drop_succ_cons,
      monthRowsFrom_block _ (y - 1) 1 hy']
    have he : 1 + (y - 1) = y := by omega
    rw [he]
    have hgd : ((buildYearlyProjection cfg).rows.drop 1).getD (y - 1) default =
        (buildYearlyProjection cfg).rows.getD y default := by
      rw [List.getD_eq_getElem?_getD, List.getD_eq_getElem?_getD,
        List.getElem?_drop, he]
    rw [hgd]
  refine ⟨?_, ?_, ?_, ?_⟩
  · rw [hrows, List.length_cons, monthRowsFrom_length, hdlen]
    omega
  · rw [hblock, monthBlock_length]
  · rw [hblock, monthBlock_net_sum]
  · intro r hr
    rw [hblock] at hr
    exact monthBlock_fields _ _ r hr

/-- C4 witness: the monthly-expansion properties instantiated at year 2 of
the positive-escalation two-year configuration. -/
theorem monthly_roundtrip_witness :
    (1 ≤ 2 ∧ ((2 : ℕ) : ℤ) ≤ cfgEscal.contractYears) ∧
    (buildMonthlyProjection (buildYearlyProjection cfgEscal)).rows.length =
        1 + 12 * cfgEscal.contractYears.toNat ∧
    (((buildMonthlyProjection (buildYearlyProjection cfgEscal)).rows.drop
        (1 + 12 * (2 - 1))).take 12).length = 12 ∧
    ((((buildMonthlyProjection (buildYearlyProjection cfgEscal)).rows.drop
        (1 + 12 * (2 - 1))).take 12).map MonthRow.net).sum =
      ((buildYearlyProjection cfgEscal).rows.getD 2 default).net ∧
    ∀ r ∈ ((buildMonthlyProjection (buildYearlyProjection cfgEscal)).rows.drop
        (1 + 12 * (2 - 1))).take 12,
      r.tariff = ((buildYearlyProjection cfgEscal).rows.getD 2 default).tariff ∧
      r.generationKwh =
        jsRound ((((buildYearlyProjection cfgEscal).rows.getD 2 default).generationKwh : ℚ) / 12) ∧
      r.revenue = ((buildYearlyProjection cfgEscal).rows.getD 2 default).revenue / 12 ∧
      r.omr = ((buildYearlyProjection cfgEscal).rows.getD 2 default).omr / 12 ∧
      r.emi = ((buildYearlyProjection cfgEscal).rows.getD 2 default).emi / 12 ∧
      r.net = ((buildYearlyProjection cfgEscal).rows.getD 2 default).net / 12 :=
  ⟨⟨by norm_num, by decide⟩, monthly_roundtrip cfgEscal 2 (by norm_num) (by decide)⟩

/-- C5 witness: cumulative consistency instantiated at index 1 of the
all-zero configuration's yearly series and index 3 of its monthly series. -/
theorem cumulative_consistency_witness :
    (1 < (buildYearlyProjection cfgZero).rows.length ∧
      ((buildYearlyProjection cfgZero).cumulative[1]?).map CumPoint.value =
        some ((((buildYearlyProjection cfgZero).rows.take 2).map YearRow.net).sum)) ∧
    (3 < (buildMonthlyProjection (buildYearlyProjection cfgZero)).rows.length ∧
      (buildMonthlyProjection (buildYearlyProjection cfgZero)).cumulative[3]? =
        some ((((buildMonthlyProjection (buildYearlyProjection cfgZero)).rows.take 4).map
          MonthRow.net).sum)) :=
  have h1 : 1 < (buildYearlyProjection cfgZero).rows.length := by
    rw [buildYearly_rows, projRows_length]
    decide
  have h3 : 3 < (buildMonthlyProjection (buildYearlyProjection cfgZero)).rows.length := by
    have hm : (buildMonthlyProjection (buildYearlyProjection cfgZero)).rows =
        month0Row (buildYearlyProjection cfgZero) ::
          monthRowsFrom 1 ((buildYearlyProjection cfgZero).rows.drop 1) := by
      simp [buildMonthlyProjection]
    rw [hm, List.length_cons, monthRowsFrom_length, List.length_drop,
      buildYearly_rows, projRows_length]
    decide
  ⟨⟨h1, (cumulative_consistency cfgZero).1.2 1 h1⟩,
    ⟨h3, ((cumulative_consistency cfgZero).2 (buildYearlyProjection cfgZero)).2 3 h3⟩⟩

/-- C7 witness: with the all-zero configuration (zero upfront) the
cumulative net is already nonnegative at the year-0 row, so the payback
index is 0 and the first-index characterization is instantiated there. -/
theorem payback_first_nonneg_witness :
    (buildYearlyProjection cfgZero).paybackYear = some 0 ∧
      (0 < (buildYearlyProjection cfgZero).rows.length ∧
        0 ≤ (((buildYearlyProjection cfgZero).rows.take 1).map YearRow.net).sum ∧
        ∀ j' < 0,
          (((buildYearlyProjection cfgZero).rows.take (j' + 1)).map YearRow.net).sum < 0) :=
  have hpb : (buildYearlyProjection cfgZero).paybackYear = some 0 := by
    norm_num [buildYearlyProjection, projRows, paybackAux, year0Row,
      upfrontOf, capexTotalOf, cfgZero]
  ⟨hpb, (payback_first_nonneg cfgZero).1 0 hpb⟩

/-- C8: the specification's concrete scenario — 50 kW, 4.2 units per
kW-day, tariff 5, capex 42000 per kW, 20% upfront — yields capexTotal
2 100 000, upfront 420 000, year-1 generation 76 650 kWh and year-1 revenue
383 250. -/
theorem concrete_scenario :
    (buildYearlyProjection cfgScenario).capexTotal = 2100000 ∧
      (buildYearlyProjection cfgScenario).upfront = 420000 ∧
      (buildYearlyProjection cfgScenario).year1Gen = 76650 ∧
      (buildYearlyProjection cfgScenario).year1Revenue = 383250 := by
  refine ⟨?_, ?_, ?_, ?_⟩ <;>
    norm_num [buildYearlyProjection, capexTotalOf, upfrontOf, year1GenQ,
      jsRound, cfgScenario]
